import Mathlib

/-!
# FTMS peripheral emulator (`ftmsdevice.cpp`): shallow embedding

The C++ class `FTMSDevice` is embedded as a record of its members together with
pure functions for its member functions.  Calls into the BLE stack are recorded
as a list of `Effect`s; a failed `Q_ASSERT` or a call through a null pointer is a
`Fault`.  `QDataStream` (little endian) is modelled on lists of bytes.
-/

namespace FTMS

/-! ## Bytes and `QDataStream` in little-endian byte order -/

/-- One byte of a `QByteArray`. -/
abbrev Byte := Fin 256

/-- The contents of a `QByteArray`. -/
abbrev QByteArray := List Byte

/-- Low eight bits of a number, as a byte. -/
def toByte (n : Nat) : Byte := ⟨n % 256, Nat.mod_lt n (by decide)⟩

/-- Conversion of an integer value to `qint8` (two's complement, 8 bits). -/
def toInt8 (v : Int) : Int := (v + 128) % 256 - 128

/-- Conversion of an integer value to `qint16` (two's complement, 16 bits). -/
def toInt16 (v : Int) : Int := (v + 32768) % 65536 - 32768

/-- Conversion of an integer value to `quint16`. -/
def toUInt16 (v : Nat) : Nat := v % 65536

/-- Stream output `ds << (quint8)v`: one byte is appended. -/
def writeUInt8 (ds : QByteArray) (v : Nat) : QByteArray := ds ++ [toByte v]

/-- Stream output `ds << (quint16)v`: low byte, then high byte. -/
def writeUInt16 (ds : QByteArray) (v : Nat) : QByteArray :=
  ds ++ [toByte v, toByte (v / 256)]

/-- Stream output `ds << (qint16)v`: the two's complement bit pattern, low byte first. -/
def writeInt16 (ds : QByteArray) (v : Int) : QByteArray :=
  writeUInt16 ds (v % 65536).toNat

/-- Stream output `ds << (quint32)v`: four bytes, least significant first. -/
def writeUInt32 (ds : QByteArray) (v : Nat) : QByteArray :=
  ds ++ [toByte v, toByte (v / 256), toByte (v / 65536), toByte (v / 16777216)]

/-- Stream input `ds >> (quint8&)`: the value read and the bytes left.  At the end of
the data the value is 0. -/
def readUInt8 : QByteArray → Nat × QByteArray
  | [] => (0, [])
  | b :: rest => (b.val, rest)

/-- Stream input `ds >> (qint8&)`. -/
def readInt8 : QByteArray → Int × QByteArray
  | [] => (0, [])
  | b :: rest => (toInt8 b.val, rest)

/-- Stream input `ds >> (quint16&)`: when fewer than two bytes are left the read
consumes them, and the value is 0. -/
def readUInt16 : QByteArray → Nat × QByteArray
  | lo :: hi :: rest => (lo.val + 256 * hi.val, rest)
  | _ => (0, [])

/-- Stream input `ds >> (qint16&)`: when fewer than two bytes are left the read
consumes them, and the value is 0. -/
def readInt16 : QByteArray → Int × QByteArray
  | lo :: hi :: rest => (toInt16 (lo.val + 256 * hi.val), rest)
  | _ => (0, [])

/-! ## Constants of `ftmsdevice.cpp` -/

abbrev FTMSDEVICE_FTMS_UUID : Nat := 0x1826
abbrev FTMSDEVICE_INDOOR_BIKE_CHAR_UUID : Nat := 0x2AD2
abbrev FTMSDEVICE_POWER_RANGE_CHAR_UUID : Nat := 0x2AD8
abbrev FTMSDEVICE_RESISTANCE_RANGE_CHAR_UUID : Nat := 0x2AD6
abbrev FTMSDEVICE_FTMS_FEATURE_CHAR_UUID : Nat := 0x2ACC
abbrev FTMSDEVICE_FTMS_CONTROL_POINT_CHAR_UUID : Nat := 0x2AD9
abbrev FTMSDEVICE_FTMS_STATUS_CHAR_UUID : Nat := 0x2ADA

/-- The 16-bit UUID `QBluetoothUuid::ClientCharacteristicConfiguration`. -/
abbrev ClientCharacteristicConfiguration : Nat := 0x2902

/-! `enum FtmsControlPointCommand` -/

abbrev FTMS_REQUEST_CONTROL : Nat := 0x00
abbrev FTMS_RESET : Nat := 0x01
abbrev FTMS_SET_TARGET_SPEED : Nat := 0x02
abbrev FTMS_SET_TARGET_INCLINATION : Nat := 0x03
abbrev FTMS_SET_TARGET_RESISTANCE_LEVEL : Nat := 0x04
abbrev FTMS_SET_TARGET_POWER : Nat := 0x05
abbrev FTMS_SET_TARGET_HEARTRATE : Nat := 0x06
abbrev FTMS_START_RESUME : Nat := 0x07
abbrev FTMS_STOP_PAUSE : Nat := 0x08
abbrev FTMS_SET_TARGETED_EXP_ENERGY : Nat := 0x09
abbrev FTMS_SET_TARGETED_STEPS : Nat := 0x0A
abbrev FTMS_SET_TARGETED_STRIDES : Nat := 0x0B
abbrev FTMS_SET_TARGETED_DISTANCE : Nat := 0x0C
abbrev FTMS_SET_TARGETED_TIME : Nat := 0x0D
abbrev FTMS_SET_TARGETED_TIME_TWO_HR_ZONES : Nat := 0x0E
abbrev FTMS_SET_TARGETED_TIME_THREE_HR_ZONES : Nat := 0x0F
abbrev FTMS_SET_TARGETED_TIME_FIVE_HR_ZONES : Nat := 0x10
abbrev FTMS_SET_INDOOR_BIKE_SIMULATION_PARAMS : Nat := 0x11
abbrev FTMS_SET_WHEEL_CIRCUMFERENCE : Nat := 0x12
abbrev FTMS_SPIN_DOWN_CONTROL : Nat := 0x13
abbrev FTMS_SET_TARGETED_CADENCE : Nat := 0x14
abbrev FTMS_RESPONSE_CODE : Nat := 0x80

/-! `enum FtmsResultCode` -/

abbrev FTMS_SUCCESS : Nat := 0x01
abbrev FTMS_NOT_SUPPORTED : Nat := 0x02
abbrev FTMS_INVALID_PARAMETER : Nat := 0x03
abbrev FTMS_OPERATION_FAILED : Nat := 0x04
abbrev FTMS_CONTROL_NOT_PERMITTED : Nat := 0x05

/-! `QLowEnergyCharacteristic::PropertyType` flags -/

abbrev PropertyRead : Nat := 0x02
abbrev PropertyWrite : Nat := 0x08
abbrev PropertyNotify : Nat := 0x10
abbrev PropertyIndicate : Nat := 0x20

/-! ## Data of the BLE stack held by the device -/

/-- Value of `QLowEnergyAdvertisingData::Discoverability`. -/
inductive Discoverability
  | DiscoverabilityNone
  | DiscoverabilityLimited
  | DiscoverabilityGeneral
  deriving DecidableEq, Repr

/-- The fields of `QLowEnergyAdvertisingData` that the device sets.  The local name
`QString("M %1").arg(id)` is kept as the argument `id`. -/
structure QLowEnergyAdvertisingData where
  discoverability : Discoverability
  includePowerLevel : Bool
  localName : Option Nat
  services : List Nat
  deriving DecidableEq, Repr

/-- A `QLowEnergyDescriptorData`: UUID and value. -/
structure QLowEnergyDescriptorData where
  uuid : Nat
  value : QByteArray
  deriving DecidableEq, Repr

/-- A `QLowEnergyCharacteristicData`: UUID, property flags, value, descriptors. -/
structure QLowEnergyCharacteristicData where
  uuid : Nat
  properties : Nat
  value : QByteArray
  descriptors : List QLowEnergyDescriptorData
  deriving DecidableEq, Repr

/-- Value of `QLowEnergyServiceData::ServiceType`. -/
inductive ServiceType
  | ServiceTypePrimary
  | ServiceTypeSecondary
  deriving DecidableEq, Repr

/-- A `QLowEnergyServiceData`: type, UUID and the characteristics in the order added. -/
structure QLowEnergyServiceData where
  type : ServiceType
  uuid : Nat
  characteristics : List QLowEnergyCharacteristicData
  deriving DecidableEq, Repr

/-- The `QLowEnergyService` object returned by a successful `addService`: it exposes
the characteristics of the service data it was created from. -/
structure QLowEnergyService where
  data : QLowEnergyServiceData
  deriving DecidableEq, Repr

/-- The call `service->characteristic(uuid)`: the first characteristic with that UUID;
`none` stands for an invalid `QLowEnergyCharacteristic`. -/
def QLowEnergyService.characteristic (service : QLowEnergyService) (uuid : Nat) :
    Option QLowEnergyCharacteristicData :=
  service.data.characteristics.find? (fun ch => decide (ch.uuid = uuid))

/-- A default-constructed `QLowEnergyAdvertisingData`. -/
def QLowEnergyAdvertisingData.default : QLowEnergyAdvertisingData :=
  { discoverability := Discoverability.DiscoverabilityNone, includePowerLevel := false,
    localName := none, services := [] }

/-- A default-constructed `QLowEnergyDescriptorData`. -/
def QLowEnergyDescriptorData.default : QLowEnergyDescriptorData :=
  { uuid := 0, value := [] }

/-- A default-constructed `QLowEnergyCharacteristicData`. -/
def QLowEnergyCharacteristicData.default : QLowEnergyCharacteristicData :=
  { uuid := 0, properties := 0, value := [], descriptors := [] }

/-- A default-constructed `QLowEnergyServiceData`. -/
def QLowEnergyServiceData.default : QLowEnergyServiceData :=
  { type := ServiceType.ServiceTypePrimary, uuid := 0, characteristics := [] }

/-- The call `charData.addDescriptor(d)`. -/
def QLowEnergyCharacteristicData.addDescriptor (ch : QLowEnergyCharacteristicData)
    (d : QLowEnergyDescriptorData) : QLowEnergyCharacteristicData :=
  { ch with descriptors := ch.descriptors ++ [d] }

/-- The call `serviceData.addCharacteristic(ch)`. -/
def QLowEnergyServiceData.addCharacteristic (sd : QLowEnergyServiceData)
    (ch : QLowEnergyCharacteristicData) : QLowEnergyServiceData :=
  { sd with characteristics := sd.characteristics ++ [ch] }

/-- The value `QByteArray(2, 0)`. -/
def zeroConfig : QByteArray := [0, 0]

/-! ## Effects and faults -/

/-- The text of a `qDebug()` line. -/
inductive DebugText
  | newTargetPower
  | newGrade
  | unhandledCommand
  | newValuesSent
  deriving DecidableEq, Repr

/-- A signal that `initialize` connects. -/
inductive Signal
  | characteristicChanged
  | timeout
  | disconnected
  deriving DecidableEq, Repr

/-- A slot of `FTMSDevice`. -/
inductive Slot
  | onIncomingControlPointCommand
  | sendCurrentValues
  | restartAdvertising
  deriving DecidableEq, Repr

/-- A call into the BLE stack or the Qt runtime, in program order. -/
inductive Effect
  | qDebug (text : DebugText) (values : List Int)
  | writeCharacteristic (uuid : Nat) (value : QByteArray)
  | createPeripheral
  | addService (data : QLowEnergyServiceData)
  | startAdvertising (advertisingData scanResponseData : QLowEnergyAdvertisingData)
  | connect (signal : Signal) (slot : Slot)
  deriving DecidableEq, Repr

/-- Abnormal termination: a failed `Q_ASSERT`, or a member call through a null pointer. -/
inductive Fault
  | assertion
  | nullPointer
  deriving DecidableEq, Repr

/-- The values written to characteristics by a run, in order. -/
def responses : List Effect → List QByteArray
  | [] => []
  | Effect.writeCharacteristic _ value :: rest => value :: responses rest
  | _ :: rest => responses rest

/-- The values of the `qDebug()` lines with the given text, in order. -/
def logged (text : DebugText) : List Effect → List (List Int)
  | [] => []
  | Effect.qDebug t values :: rest =>
    if t = text then values :: logged text rest else logged text rest
  | _ :: rest => logged text rest

/-! ## The device -/

/-- Modelled from the spec: the member declarations of `FTMSDevice` are in
`ftmsdevice.h`, which is not among the sources; the member names are those the
constructor and the member functions use.  The telemetry snapshot is heartrate: uint,
power: int, cadence: uint, speed: uint; power and speed go on the wire as `int16` and
`uint16` and are 16 bits wide.  The width of the cadence member is the parameter
`cadenceBits` of `sendCurrentValues`.  The pointers `m_controller` and
`m_ftmsService` are `none` while null. -/
structure FTMSDevice where
  m_currentHeartrate : Nat
  m_currentPower : Int
  m_currentCadence : Nat
  m_currentSpeed : Nat
  m_devId : Nat
  m_isControllable : Bool
  m_isSimulation : Bool
  m_advertisingData : QLowEnergyAdvertisingData
  m_indoorBikeCharData : QLowEnergyCharacteristicData
  m_indoorBikeClientConfig : QLowEnergyDescriptorData
  m_powerRangeCharData : QLowEnergyCharacteristicData
  m_powerRangeClientConfig : QLowEnergyDescriptorData
  m_resistanceRangeCharData : QLowEnergyCharacteristicData
  m_resistanceRangeClientConfig : QLowEnergyDescriptorData
  m_ftmsFeatureCharData : QLowEnergyCharacteristicData
  m_ftmsFeatureClientConfig : QLowEnergyDescriptorData
  m_ftmsControlPointCharData : QLowEnergyCharacteristicData
  m_ftmsStatusCharData : QLowEnergyCharacteristicData
  m_ftmsStatusClientConfig : QLowEnergyDescriptorData
  m_ftmsServiceData : QLowEnergyServiceData
  m_controller : Option Unit
  m_ftmsService : Option QLowEnergyService
  m_updateTimer : Option Nat
  deriving DecidableEq, Repr

/-- The constructor `FTMSDevice::FTMSDevice(devId)` (named `create` here, since the
structure has the class name): the members of the initialiser list get their values,
the Qt members are default-constructed, the timer is stopped; the two pointers, which
the constructor does not set, are taken as null. -/
def FTMSDevice.create (devId : Nat) : FTMSDevice :=
  { m_currentHeartrate := 0
    m_currentPower := 150
    m_currentCadence := 80
    m_currentSpeed := 500
    m_devId := devId
    m_isControllable := true
    m_isSimulation := false
    m_advertisingData := QLowEnergyAdvertisingData.default
    m_indoorBikeCharData := QLowEnergyCharacteristicData.default
    m_indoorBikeClientConfig := QLowEnergyDescriptorData.default
    m_powerRangeCharData := QLowEnergyCharacteristicData.default
    m_powerRangeClientConfig := QLowEnergyDescriptorData.default
    m_resistanceRangeCharData := QLowEnergyCharacteristicData.default
    m_resistanceRangeClientConfig := QLowEnergyDescriptorData.default
    m_ftmsFeatureCharData := QLowEnergyCharacteristicData.default
    m_ftmsFeatureClientConfig := QLowEnergyDescriptorData.default
    m_ftmsControlPointCharData := QLowEnergyCharacteristicData.default
    m_ftmsStatusCharData := QLowEnergyCharacteristicData.default
    m_ftmsStatusClientConfig := QLowEnergyDescriptorData.default
    m_ftmsServiceData := QLowEnergyServiceData.default
    m_controller := none
    m_ftmsService := none
    m_updateTimer := none }

/-- The value streamed by `ds << min << max << step` with `qint16 min, max` and
`quint16 step` into an empty array (lines 84-90 and 99-105 of `initialize`). -/
def rangeData (min max : Int) (step : Nat) : QByteArray :=
  writeUInt16 (writeInt16 (writeInt16 [] min) max) step

/-- The `features` mask chosen by `initialize` (lines 119-128). -/
def featuresMask (isControllable : Bool) : Nat :=
  if isControllable then 0b00000000000000000100000010000010
  else 0b00000000000000000100000000000010

/-- The `settings` mask chosen by `initialize` (lines 119-128). -/
def settingsMask (isControllable : Bool) : Nat :=
  if isControllable then 0b00000000000000000010000000001100
  else 0b00000000000000000000000000000000

/-- The value streamed by `ds << features << settings` into an empty array
(lines 114-130 of `initialize`). -/
def ftmsFeatureCharDataRaw (isControllable : Bool) : QByteArray :=
  writeUInt32 (writeUInt32 [] (featuresMask isControllable)) (settingsMask isControllable)

/-- A client-characteristic-configuration descriptor with value `QByteArray(2, 0)`. -/
def clientConfig : QLowEnergyDescriptorData :=
  { uuid := ClientCharacteristicConfiguration, value := zeroConfig }

/-- The member function `FTMSDevice::initialize`.  The function-local
`static bool isInitialized` is passed in and returned; `addServiceOk` is whether
`m_controller->addService` returns a service (rather than null). -/
def FTMSDevice.initialize (isInitialized : Bool) (addServiceOk : Bool) (s : FTMSDevice) :
    Bool × FTMSDevice × List Effect :=
  if isInitialized = true then (isInitialized, s, [])
  else
    let advertisingData : QLowEnergyAdvertisingData :=
      { s.m_advertisingData with
        discoverability := Discoverability.DiscoverabilityGeneral
        includePowerLevel := true
        localName := some s.m_devId
        services := [FTMSDEVICE_FTMS_UUID] }
    let indoorBike := QLowEnergyCharacteristicData.addDescriptor
      { s.m_indoorBikeCharData with
        uuid := FTMSDEVICE_INDOOR_BIKE_CHAR_UUID, properties := PropertyNotify } clientConfig
    let powerRange := QLowEnergyCharacteristicData.addDescriptor
      { s.m_powerRangeCharData with
        uuid := FTMSDEVICE_POWER_RANGE_CHAR_UUID
        value := rangeData 0 1400 1
        properties := PropertyRead } clientConfig
    let resistanceRange := QLowEnergyCharacteristicData.addDescriptor
      { s.m_resistanceRangeCharData with
        uuid := FTMSDEVICE_RESISTANCE_RANGE_CHAR_UUID
        value := rangeData 0 70 1
        properties := PropertyRead } clientConfig
    let ftmsFeature := QLowEnergyCharacteristicData.addDescriptor
      { s.m_ftmsFeatureCharData with
        uuid := FTMSDEVICE_FTMS_FEATURE_CHAR_UUID
        value := ftmsFeatureCharDataRaw s.m_isControllable
        properties := PropertyRead } clientConfig
    let controlPoint := QLowEnergyCharacteristicData.addDescriptor
      { s.m_ftmsControlPointCharData with
        uuid := 0x2AD9, properties := PropertyWrite ||| PropertyIndicate } clientConfig
    let ftmsStatus := QLowEnergyCharacteristicData.addDescriptor
      { s.m_ftmsStatusCharData with
        uuid := FTMSDEVICE_FTMS_STATUS_CHAR_UUID, properties := PropertyNotify } clientConfig
    let base : QLowEnergyServiceData :=
      { s.m_ftmsServiceData with
        type := ServiceType.ServiceTypePrimary, uuid := FTMSDEVICE_FTMS_UUID }
    let four := (((base.addCharacteristic indoorBike).addCharacteristic
      controlPoint).addCharacteristic ftmsFeature).addCharacteristic ftmsStatus
    let serviceData :=
      if s.m_isControllable = true then
        (four.addCharacteristic powerRange).addCharacteristic resistanceRange
      else four
    let service : Option QLowEnergyService :=
      if addServiceOk = true then some { data := serviceData } else none
    (true,
     { s with
       m_advertisingData := advertisingData
       m_indoorBikeCharData := indoorBike
       m_indoorBikeClientConfig := clientConfig
       m_powerRangeCharData := powerRange
       m_powerRangeClientConfig := clientConfig
       m_resistanceRangeCharData := resistanceRange
       m_resistanceRangeClientConfig := clientConfig
       m_ftmsFeatureCharData := ftmsFeature
       m_ftmsFeatureClientConfig := clientConfig
       m_ftmsControlPointCharData := controlPoint
       m_ftmsStatusCharData := ftmsStatus
       m_ftmsStatusClientConfig := clientConfig
       m_ftmsServiceData := serviceData
       m_controller := some ()
       m_ftmsService := service
       m_updateTimer := some 1000 },
     [Effect.createPeripheral,
      Effect.addService serviceData,
      Effect.startAdvertising advertisingData advertisingData,
      Effect.connect Signal.characteristicChanged Slot.onIncomingControlPointCommand,
      Effect.connect Signal.timeout Slot.sendCurrentValues,
      Effect.connect Signal.disconnected Slot.restartAdvertising])

/-- The `switch` of `onIncomingControlPointCommand` (lines 204-245): from the command
byte and the rest of the input stream, the reply array and the `qDebug()` lines. -/
def controlPointSwitch (cmd : Nat) (inData : QByteArray) : QByteArray × List Effect :=
  let reply : QByteArray := []
  if cmd = FTMS_REQUEST_CONTROL then
    (writeUInt8 (writeUInt8 (writeUInt8 reply FTMS_RESPONSE_CODE) FTMS_REQUEST_CONTROL)
      FTMS_SUCCESS, [])
  else if cmd = FTMS_RESET then
    (writeUInt8 (writeUInt8 (writeUInt8 reply FTMS_RESPONSE_CODE) FTMS_RESET)
      FTMS_SUCCESS, [])
  else if cmd = FTMS_START_RESUME then
    (writeUInt8 (writeUInt8 (writeUInt8 reply FTMS_RESPONSE_CODE) FTMS_START_RESUME)
      FTMS_SUCCESS, [])
  else if cmd = FTMS_SET_TARGET_RESISTANCE_LEVEL then
    let (_requestedResistanceLevel, _) := readInt8 inData
    (writeUInt8 (writeUInt8 (writeUInt8 reply FTMS_RESPONSE_CODE)
      FTMS_SET_TARGET_RESISTANCE_LEVEL) FTMS_SUCCESS, [])
  else if cmd = FTMS_SET_TARGET_POWER then
    let (targetPower, _) := readInt16 inData
    (writeUInt8 (writeUInt8 (writeUInt8 reply FTMS_RESPONSE_CODE) FTMS_SET_TARGET_POWER)
      FTMS_SUCCESS, [Effect.qDebug DebugText.newTargetPower [targetPower]])
  else if cmd = FTMS_SET_INDOOR_BIKE_SIMULATION_PARAMS then
    let (_windSpeed, inData) := readInt16 inData
    let (grade, inData) := readInt16 inData
    let (_crr, inData) := readUInt8 inData
    let (_cw, _) := readUInt8 inData
    (writeUInt8 (writeUInt8 (writeUInt8 reply FTMS_RESPONSE_CODE)
      FTMS_SET_INDOOR_BIKE_SIMULATION_PARAMS) FTMS_SUCCESS,
     [Effect.qDebug DebugText.newGrade [grade]])
  else
    (reply, [Effect.qDebug DebugText.unhandledCommand [(cmd : Int)]])

/-- The member function `FTMSDevice::onIncomingControlPointCommand(c, b)`: the state
afterwards and the calls made, or the fault that ends the run. -/
def FTMSDevice.onIncomingControlPointCommand (s : FTMSDevice) (_c : Nat) (b : QByteArray) :
    Except Fault (FTMSDevice × List Effect) :=
  if b.length ≥ 1 then
    match s.m_ftmsService with
    | none => Except.error Fault.nullPointer
    | some service =>
      match service.characteristic FTMSDEVICE_FTMS_CONTROL_POINT_CHAR_UUID with
      | none => Except.error Fault.assertion
      | some characteristic =>
        let (cmd, inData) := readUInt8 b
        let (reply, log) := controlPointSwitch cmd inData
        if reply.isEmpty = false then
          Except.ok (s, log ++ [Effect.writeCharacteristic characteristic.uuid reply])
        else
          Except.ok (s, log)
  else Except.error Fault.assertion

/-- The frame `charFlags << (quint16)(cadence*2) << power` of `sendCurrentValues`
(lines 279-284). -/
def cadencePowerFrame (cadence : Nat) (power : Int) : QByteArray :=
  writeInt16 (writeUInt16 (writeUInt16 [] 0b0000000001000101) (toUInt16 (cadence * 2))) power

/-- The frame `charFlags << speed` of `sendCurrentValues` (lines 294-299). -/
def speedFrame (speed : Nat) : QByteArray :=
  writeUInt16 (writeUInt16 [] 0b0000000000000000) speed

/-- The first part of `sendCurrentValues`, "Update dummy values" (lines 259-273), for
a cadence member of `cadenceBits` bits: each value is incremented in its member type
and reset when it is above its limit. -/
def updateDummyValues (cadenceBits : Nat) (s : FTMSDevice) : FTMSDevice :=
  let cadence := (s.m_currentCadence + 1) % 2 ^ cadenceBits
  let cadence := if cadence > 120 then 80 else cadence
  let power := toInt16 (s.m_currentPower + 1)
  let power := if power > 400 then 150 else power
  let speed := toUInt16 (s.m_currentSpeed + 100)
  let speed := if speed > 3000 then 500 else speed
  { s with m_currentCadence := cadence, m_currentPower := power, m_currentSpeed := speed }

/-- The member function `FTMSDevice::sendCurrentValues`, for a cadence member of
`cadenceBits` bits: the state afterwards and the calls made, or the fault that ends
the run. -/
def FTMSDevice.sendCurrentValues (cadenceBits : Nat) (s : FTMSDevice) :
    Except Fault (FTMSDevice × List Effect) :=
  let s := updateDummyValues cadenceBits s
  let log := Effect.qDebug DebugText.newValuesSent
    [(s.m_currentCadence : Int), s.m_currentPower, ((s.m_currentSpeed / 100 : Nat) : Int)]
  match s.m_ftmsService with
  | none => Except.error Fault.nullPointer
  | some service =>
    match service.characteristic FTMSDEVICE_INDOOR_BIKE_CHAR_UUID with
    | none => Except.error Fault.assertion
    | some characteristic =>
      Except.ok (s,
        [log,
         Effect.writeCharacteristic characteristic.uuid
           (cadencePowerFrame s.m_currentCadence s.m_currentPower),
         Effect.writeCharacteristic characteristic.uuid (speedFrame s.m_currentSpeed)])

/-- The member function `FTMSDevice::restartAdvertising`; `addServiceOk` is whether
`m_controller->addService` returns a service (rather than null). -/
def FTMSDevice.restartAdvertising (addServiceOk : Bool) (s : FTMSDevice) :
    Except Fault (FTMSDevice × List Effect) :=
  match s.m_controller with
  | none => Except.error Fault.nullPointer
  | some _ =>
    let service : Option QLowEnergyService :=
      if addServiceOk = true then some { data := s.m_ftmsServiceData } else none
    let s := { s with m_ftmsService := service }
    match s.m_ftmsService with
    | some _ =>
      Except.ok (s, [Effect.addService s.m_ftmsServiceData,
                     Effect.startAdvertising s.m_advertisingData s.m_advertisingData])
    | none => Except.ok (s, [Effect.addService s.m_ftmsServiceData])

/-- Whether the device holds a registered service that has the characteristic `uuid`:
then `m_ftmsService->characteristic(uuid)` is valid. -/
def FTMSDevice.hasCharacteristic (s : FTMSDevice) (uuid : Nat) : Bool :=
  match s.m_ftmsService with
  | none => false
  | some service => (service.characteristic uuid).isSome

/-- The device state after a first call of `initialize` (the static latch still
false) on the state `s`. -/
def firstInit (addServiceOk : Bool) (s : FTMSDevice) : FTMSDevice :=
  Prod.fst (Prod.snd ( FTMSDevice.initialize false addServiceOk s))

/-- The device after construction with id `devId` and a first `initialize` in which
the service registration succeeds. -/
def started (devId : Nat) : FTMSDevice :=
  firstInit true (FTMSDevice.create devId)

/-- Whether the `switch` of `onIncomingControlPointCommand` has a `case` for the
command byte (lines 206, 210, 213, 216, 223, 231). -/
def implemented (cmd : Nat) : Bool :=
  cmd = FTMS_REQUEST_CONTROL || cmd = FTMS_RESET || cmd = FTMS_START_RESUME ||
  cmd = FTMS_SET_TARGET_RESISTANCE_LEVEL || cmd = FTMS_SET_TARGET_POWER ||
  cmd = FTMS_SET_INDOOR_BIKE_SIMULATION_PARAMS

/-- The number of payload bytes the `case` of a command reads from the stream:
one `qint8` (line 219), one `qint16` (line 226), two `qint16` and two `quint8`
(lines 235-238); the other cases read nothing. -/
def payloadWidth (cmd : Nat) : Nat :=
  if cmd = FTMS_SET_TARGET_RESISTANCE_LEVEL then 1
  else if cmd = FTMS_SET_TARGET_POWER then 2
  else if cmd = FTMS_SET_INDOOR_BIKE_SIMULATION_PARAMS then 6
  else 0

/-- The control-point UUID, under which the handler looks up the characteristic it
replies on. -/
abbrev cpUuid : Nat := FTMSDEVICE_FTMS_CONTROL_POINT_CHAR_UUID

/-- The timer firing `n` times in a row: `n` runs of `sendCurrentValues`, each from the
state the one before left; the calls made are collected in order.  A fault ends
the run. -/
def runTicks (cadenceBits : Nat) : Nat → FTMSDevice → Except Fault (FTMSDevice × List Effect)
  | 0, s => Except.ok (s, [])
  | n + 1, s =>
    match FTMSDevice.sendCurrentValues cadenceBits s with
    | Except.error f => Except.error f
    | Except.ok (s1, effs1) =>
      match runTicks cadenceBits n s1 with
      | Except.error f => Except.error f
      | Except.ok (s2, effs2) => Except.ok (s2, effs1 ++ effs2)

/-- The central writing the frames of `frames` one after the other: a run of
`onIncomingControlPointCommand` per frame, each from the state the one before left;
the calls made are collected in order.  A fault ends the run. -/
def handleAll : List QByteArray → FTMSDevice → Except Fault (FTMSDevice × List Effect)
  | [], s => Except.ok (s, [])
  | b :: frames, s =>
    match FTMSDevice.onIncomingControlPointCommand s FTMSDEVICE_FTMS_CONTROL_POINT_CHAR_UUID b with
    | Except.error f => Except.error f
    | Except.ok (s1, effs1) =>
      match handleAll frames s1 with
      | Except.error f => Except.error f
      | Except.ok (s2, effs2) => Except.ok (s2, effs1 ++ effs2)

/-! ## Lemmas on the stream model and the handler -/

theorem toByte_val (b : Byte) : toByte b.val = b := by
  apply Fin.ext
  simp [toByte, Nat.mod_eq_of_lt b.isLt]

theorem toInt16_little_endian (lo hi : Byte) :
    toInt16 ((lo.val + 256 * hi.val : Nat) : Int) =
      if lo.val + 256 * hi.val < 32768 then ((lo.val + 256 * hi.val : Nat) : Int)
      else ((lo.val + 256 * hi.val : Nat) : Int) - 65536 := by
  have hl := lo.isLt
  have hh := hi.isLt
  unfold toInt16
  split_ifs <;> omega

theorem responses_append (xs ys : List Effect) :
    responses (xs ++ ys) = responses xs ++ responses ys := by
  induction xs with
  | nil => rfl
  | cons x xs ih => cases x <;> simp [responses, ih]

theorem logged_append (t : DebugText) (xs ys : List Effect) :
    logged t (xs ++ ys) = logged t xs ++ logged t ys := by
  induction xs with
  | nil => rfl
  | cons x xs ih =>
    cases x <;> simp [logged, ih]
    split_ifs <;> simp

theorem controlPointSwitch_reply (cmd : Nat) (inData : QByteArray) :
    (controlPointSwitch cmd inData).1 =
      if implemented cmd = true then [0x80, toByte cmd, 0x01] else [] := by
  unfold controlPointSwitch implemented
  split_ifs <;> simp_all [writeUInt8, toByte] <;> rfl

theorem controlPointSwitch_log_responses (cmd : Nat) (inData : QByteArray) :
    responses (controlPointSwitch cmd inData).2 = [] := by
  unfold controlPointSwitch
  split_ifs <;> simp [responses]

theorem mem_of_implemented (b : Byte) (hi : implemented b.val = true) :
    b ∈ ([0x00, 0x01, 0x04, 0x05, 0x07, 0x11] : List Byte) := by
  simp only [implemented, Bool.or_eq_true, decide_eq_true_eq] at hi
  simp only [List.mem_cons, List.mem_singleton, List.not_mem_nil, or_false]
  rcases hi with ((((hi | hi) | hi) | hi) | hi) | hi
  · exact Or.inl (Fin.ext hi)
  · exact Or.inr (Or.inl (Fin.ext hi))
  · exact Or.inr (Or.inr (Or.inr (Or.inr (Or.inl (Fin.ext hi)))))
  · exact Or.inr (Or.inr (Or.inl (Fin.ext hi)))
  · exact Or.inr (Or.inr (Or.inr (Or.inl (Fin.ext hi))))
  · exact Or.inr (Or.inr (Or.inr (Or.inr (Or.inr (Fin.ext hi)))))

theorem find_uuid (l : List QLowEnergyCharacteristicData) (uuid : Nat)
    (ch : QLowEnergyCharacteristicData)
    (h : l.find? (fun x => decide (x.uuid = uuid)) = some ch) : ch.uuid = uuid := by
  have := List.find?_some h
  simpa using this

theorem handler_run (s : FTMSDevice) (c : Nat) (b0 : Byte) (rest : QByteArray)
    (h : s.hasCharacteristic cpUuid = true) :
    FTMSDevice.onIncomingControlPointCommand s c (b0 :: rest) =
      Except.ok (s, (controlPointSwitch b0.val rest).2 ++
        (if (controlPointSwitch b0.val rest).1.isEmpty = false then
          [Effect.writeCharacteristic cpUuid (controlPointSwitch b0.val rest).1]
         else [])) := by
  unfold FTMSDevice.hasCharacteristic at h
  unfold FTMSDevice.onIncomingControlPointCommand
  cases hs : s.m_ftmsService with
  | none => simp [hs] at h
  | some service =>
    simp only [hs] at h
    cases hc : service.characteristic FTMSDEVICE_FTMS_CONTROL_POINT_CHAR_UUID with
    | none => simp [cpUuid, hc] at h
    | some ch =>
      have hu : ch.uuid = FTMSDEVICE_FTMS_CONTROL_POINT_CHAR_UUID := find_uuid _ _ _ hc
      simp only [List.length_cons, ge_iff_le, Nat.le_add_left, if_true, readUInt8, hc, hu]
      split_ifs <;> simp

theorem handler_responses (s : FTMSDevice) (c : Nat) (b0 : Byte) (rest : QByteArray)
    (h : s.hasCharacteristic cpUuid = true) :
    ∃ effs, FTMSDevice.onIncomingControlPointCommand s c (b0 :: rest) = Except.ok (s, effs) ∧
      responses effs = (if implemented b0.val = true then [[0x80, b0, 0x01]] else []) ∧
      ∀ t, logged t effs = logged t (controlPointSwitch b0.val rest).2 := by
  refine ⟨_, handler_run s c b0 rest h, ?_, ?_⟩
  · rw [responses_append, controlPointSwitch_log_responses, controlPointSwitch_reply]
    by_cases hi : implemented b0.val = true
    · simp [hi, responses, toByte_val]
    · simp [hi, responses]
  · intro t
    rw [logged_append]
    split_ifs <;> simp [logged]

/-! ## Control point: responses -/

/-- C1: for every non-empty inbound frame `b0 :: rest`, handled by a device whose
registered service has the control-point characteristic, the handler completes and
emits at most one response; a response, when emitted, is exactly `[0x80, b0, 0x01]`
with `b0` the first byte of the frame.  The frame `[0x00]` yields `[0x80, 0x00, 0x01]`. -/
theorem control_point_response_shape (s : FTMSDevice) (c : Nat) (b0 : Byte)
    (rest : QByteArray) (h : s.hasCharacteristic cpUuid = true) :
    ∃ effs, FTMSDevice.onIncomingControlPointCommand s c (b0 :: rest) = Except.ok (s, effs) ∧
      (responses effs = [] ∨ responses effs = [[0x80, b0, 0x01]]) ∧
      (b0 = 0x00 → rest = [] → responses effs = [[0x80, 0x00, 0x01]]) := by
  obtain ⟨effs, hrun, hresp, _⟩ := handler_responses s c b0 rest h
  refine ⟨effs, hrun, ?_, ?_⟩
  · rw [hresp]
    split_ifs
    · exact Or.inr rfl
    · exact Or.inl rfl
  · intro hb _
    subst hb
    rw [hresp]
    rfl

/-- Witness of C1: the request-control frame `[0x00]` on a started device. -/
theorem control_point_response_shape_witness :
    (started 7).hasCharacteristic cpUuid = true ∧
    ∃ effs, FTMSDevice.onIncomingControlPointCommand (started 7) cpUuid (0x00 :: []) =
        Except.ok (started 7, effs) ∧
      (responses effs = [] ∨ responses effs = [[0x80, 0x00, 0x01]]) ∧
      ((0x00 : Byte) = 0x00 → ([] : QByteArray) = [] →
        responses effs = [[0x80, 0x00, 0x01]]) :=
  ⟨rfl, control_point_response_shape (started 7) cpUuid 0x00 [] rfl⟩

/-- C2, as stated, fails for stop-pause: the frame `[0x08]` on a started device runs
into the `default` branch, which only logs the command; no response is written. -/
theorem stop_pause_gets_no_response :
    FTMSDevice.onIncomingControlPointCommand (started 7) cpUuid [0x08] =
      Except.ok (started 7, [Effect.qDebug DebugText.unhandledCommand [8]]) ∧
    responses [Effect.qDebug DebugText.unhandledCommand [8]] ≠ [[0x80, 0x08, 0x01]] :=
  ⟨rfl, by decide⟩

/-- C2, amended: for request-control (0x00), reset (0x01) and start-resume (0x07), and
every payload after the opcode byte, the handler emits exactly the response
`[0x80, opcode, 0x01]`; for stop-pause (0x08), which has no case in the switch, it
emits no response. -/
theorem unconditional_commands_succeed (s : FTMSDevice) (c : Nat) (opcode : Byte)
    (payload : QByteArray) (h : s.hasCharacteristic cpUuid = true) :
    ((opcode = 0x00 ∨ opcode = 0x01 ∨ opcode = 0x07) →
      ∃ effs, FTMSDevice.onIncomingControlPointCommand s c (opcode :: payload) =
          Except.ok (s, effs) ∧ responses effs = [[0x80, opcode, 0x01]]) ∧
    (opcode = 0x08 →
      ∃ effs, FTMSDevice.onIncomingControlPointCommand s c (opcode :: payload) =
          Except.ok (s, effs) ∧ responses effs = []) := by
  obtain ⟨effs, hrun, hresp, _⟩ := handler_responses s c opcode payload h
  constructor
  · intro hop
    refine ⟨effs, hrun, ?_⟩
    rw [hresp]
    rcases hop with hop | hop | hop <;> subst hop <;> rfl
  · intro hop
    refine ⟨effs, hrun, ?_⟩
    rw [hresp]
    subst hop
    rfl

/-- Witness of C2 (amended): the start-resume frame `[0x07]` on a started device. -/
theorem unconditional_commands_succeed_witness :
    (started 7).hasCharacteristic cpUuid = true ∧
    ∃ effs, FTMSDevice.onIncomingControlPointCommand (started 7) cpUuid [0x07] =
        Except.ok (started 7, effs) ∧ responses effs = [[0x80, 0x07, 0x01]] :=
  ⟨rfl, (unconditional_commands_succeed (started 7) cpUuid 0x07 [] rfl).1
    (Or.inr (Or.inr rfl))⟩

/-- C3, as stated, fails for set-target-speed: the frame `[0x02, 0xE8, 0x03]` (opcode
0x02 with a two-byte payload) on a started device produces no response at all. -/
theorem set_target_speed_gets_no_response :
    FTMSDevice.onIncomingControlPointCommand (started 7) cpUuid [0x02, 0xE8, 0x03] =
      Except.ok (started 7, [Effect.qDebug DebugText.unhandledCommand [2]]) ∧
    responses [Effect.qDebug DebugText.unhandledCommand [2]] = [] :=
  ⟨rfl, rfl⟩

/-- C3, amended: for every opcode that has a case in the switch (0x00, 0x01, 0x04,
0x05, 0x07, 0x11) followed by a payload of the width that case reads, the handler
produces exactly one response, and its second byte equals the opcode byte of the
request; for every other opcode in 0x00 .. 0x14, whatever the payload, no response
is produced. -/
theorem echoed_opcode_round_trip (s : FTMSDevice) (c : Nat) (opcode : Byte)
    (payload : QByteArray) (h : s.hasCharacteristic cpUuid = true)
    (hvalid : opcode.val ≤ FTMS_SET_TARGETED_CADENCE) :
    ∃ effs, FTMSDevice.onIncomingControlPointCommand s c (opcode :: payload) =
        Except.ok (s, effs) ∧
      (opcode ∈ ([0x00, 0x01, 0x04, 0x05, 0x07, 0x11] : List Byte) →
        payload.length = payloadWidth opcode.val →
        ∃ reply, responses effs = [reply] ∧ reply.get? 1 = some opcode) ∧
      (opcode ∉ ([0x00, 0x01, 0x04, 0x05, 0x07, 0x11] : List Byte) →
        responses effs = []) := by
  obtain ⟨effs, hrun, hresp, _⟩ := handler_responses s c opcode payload h
  refine ⟨effs, hrun, ?_, ?_⟩
  · intro hop _
    have hi : implemented opcode.val = true := by
      simp only [List.mem_cons, List.mem_singleton, List.not_mem_nil, or_false] at hop
      rcases hop with hop | hop | hop | hop | hop | hop <;> subst hop <;> rfl
    exact ⟨[0x80, opcode, 0x01], by rw [hresp, if_pos hi], rfl⟩
  · intro hop
    have hi : ¬ implemented opcode.val = true :=
      fun hi => hop (mem_of_implemented opcode hi)
    rw [hresp, if_neg hi]

/-- Witness of C3 (amended): set-target-power with its two payload bytes. -/
theorem echoed_opcode_round_trip_witness :
    (started 7).hasCharacteristic cpUuid = true ∧
    (0x05 : Byte).val ≤ FTMS_SET_TARGETED_CADENCE ∧
    ∃ effs, FTMSDevice.onIncomingControlPointCommand (started 7) cpUuid
        (0x05 :: [0xE8, 0x03]) = Except.ok (started 7, effs) ∧
      ((0x05 : Byte) ∈ ([0x00, 0x01, 0x04, 0x05, 0x07, 0x11] : List Byte) →
        ([0xE8, 0x03] : QByteArray).length = payloadWidth (0x05 : Byte).val →
        ∃ reply, responses effs = [reply] ∧ reply.get? 1 = some 0x05) ∧
      ((0x05 : Byte) ∉ ([0x00, 0x01, 0x04, 0x05, 0x07, 0x11] : List Byte) →
        responses effs = []) :=
  ⟨rfl, by decide,
    echoed_opcode_round_trip (started 7) cpUuid 0x05 [0xE8, 0x03] rfl (by decide)⟩

/-- C4: for every inbound frame whose first byte is not one of the implemented opcodes
0x00, 0x01, 0x04, 0x05, 0x07, 0x11, the handler completes, emits no response and
leaves the device state unchanged, so a command handled afterwards gets the result
it would get had the frame never been sent. -/
theorem unimplemented_opcode_dropped (s : FTMSDevice) (c : Nat) (b0 : Byte)
    (rest : QByteArray) (h : s.hasCharacteristic cpUuid = true)
    (hb : b0 ∉ ([0x00, 0x01, 0x04, 0x05, 0x07, 0x11] : List Byte)) :
    (∃ effs, FTMSDevice.onIncomingControlPointCommand s c (b0 :: rest) =
        Except.ok (s, effs) ∧ responses effs = []) ∧
    ∀ (c2 : Nat) (b2 : QByteArray),
      (FTMSDevice.onIncomingControlPointCommand s c (b0 :: rest)).bind
          (fun r => FTMSDevice.onIncomingControlPointCommand r.1 c2 b2) =
        FTMSDevice.onIncomingControlPointCommand s c2 b2 := by
  obtain ⟨effs, hrun, hresp, _⟩ := handler_responses s c b0 rest h
  have hi : ¬ implemented b0.val = true := fun hi => hb (mem_of_implemented b0 hi)
  refine ⟨⟨effs, hrun, by rw [hresp, if_neg hi]⟩, ?_⟩
  intro c2 b2
  rw [hrun]
  rfl

/-- Witness of C4: the unknown-opcode frame `[0xFF]` on a started device. -/
theorem unimplemented_opcode_dropped_witness :
    (started 7).hasCharacteristic cpUuid = true ∧
    (0xFF : Byte) ∉ ([0x00, 0x01, 0x04, 0x05, 0x07, 0x11] : List Byte) ∧
    (∃ effs, FTMSDevice.onIncomingControlPointCommand (started 7) cpUuid [0xFF] =
        Except.ok (started 7, effs) ∧ responses effs = []) ∧
    ∀ (c2 : Nat) (b2 : QByteArray),
      (FTMSDevice.onIncomingControlPointCommand (started 7) cpUuid [0xFF]).bind
          (fun r => FTMSDevice.onIncomingControlPointCommand r.1 c2 b2) =
        FTMSDevice.onIncomingControlPointCommand (started 7) c2 b2 :=
  ⟨rfl, by decide, unimplemented_opcode_dropped (started 7) cpUuid 0xFF [] rfl (by decide)⟩

/-- C5, as stated, fails: the truncated set-target-power frames `[0x05]` and
`[0x05, 0xE8]` on a started device are answered with the indication
`[0x80, 0x05, 0x01]`; the target power is read as 0. -/
theorem truncated_set_target_power_is_answered :
    FTMSDevice.onIncomingControlPointCommand (started 7) cpUuid [0x05] =
      Except.ok (started 7, [Effect.qDebug DebugText.newTargetPower [0],
        Effect.writeCharacteristic cpUuid [0x80, 0x05, 0x01]]) ∧
    FTMSDevice.onIncomingControlPointCommand (started 7) cpUuid [0x05, 0xE8] =
      Except.ok (started 7, [Effect.qDebug DebugText.newTargetPower [0],
        Effect.writeCharacteristic cpUuid [0x80, 0x05, 0x01]]) :=
  ⟨rfl, rfl⟩

/-- C5, amended: for every inbound frame whose payload is shorter than its opcode
reads (0x04 with fewer than 1 payload byte, 0x05 with fewer than 2, 0x11 with fewer
than 6), the handler completes, leaves the state unchanged and sends the indication
`[0x80, opcode, 0x01]`; every field that cannot be read in full has the value 0.
The calls made are exactly: for 0x04 the indication alone (the resistance level
read is 0); for 0x05 the log of target power 0, then the indication; for 0x11 the
log of the grade, then the indication, where the grade is the second `qint16` read
from the payload: 0 when fewer than 4 payload bytes are present, the little-endian
signed value of payload bytes 2 and 3 otherwise; the wind speed read is 0 with fewer
than 2 payload bytes, the rolling-resistance coefficient 0 with fewer than 5, the
wind-resistance coefficient 0 always. -/
theorem truncated_payload_still_answered (s : FTMSDevice) (c : Nat) (opcode : Byte)
    (payload : QByteArray) (h : s.hasCharacteristic cpUuid = true)
    (hop : opcode = 0x04 ∨ opcode = 0x05 ∨ opcode = 0x11)
    (hshort : payload.length < payloadWidth opcode.val) :
    ∃ effs, FTMSDevice.onIncomingControlPointCommand s c (opcode :: payload) =
        Except.ok (s, effs) ∧
      responses effs = [[0x80, opcode, 0x01]] ∧
      (opcode = 0x05 → logged DebugText.newTargetPower effs = [[0]]) ∧
      (opcode = 0x04 →
        effs = [Effect.writeCharacteristic cpUuid [0x80, 0x04, 0x01]] ∧
        readInt8 payload = (0, [])) ∧
      (opcode = 0x05 →
        effs = [Effect.qDebug DebugText.newTargetPower [0],
                Effect.writeCharacteristic cpUuid [0x80, 0x05, 0x01]] ∧
        readInt16 payload = (0, [])) ∧
      (opcode = 0x11 →
        ∃ grade : Int,
          effs = [Effect.qDebug DebugText.newGrade [grade],
                  Effect.writeCharacteristic cpUuid [0x80, 0x11, 0x01]] ∧
          logged DebugText.newGrade effs = [[grade]] ∧
          grade = (readInt16 (readInt16 payload).2).1 ∧
          (payload.length < 4 → grade = 0) ∧
          (∀ (w0 w1 g0 g1 : Byte) (rest : QByteArray),
            payload = w0 :: w1 :: g0 :: g1 :: rest →
            grade = if g0.val + 256 * g1.val < 32768
              then ((g0.val + 256 * g1.val : Nat) : Int)
              else ((g0.val + 256 * g1.val : Nat) : Int) - 65536) ∧
          (payload.length < 2 → (readInt16 payload).1 = 0) ∧
          (payload.length < 5 →
            (readUInt8 (readInt16 (readInt16 payload).2).2).1 = 0) ∧
          (readUInt8 (readUInt8 (readInt16 (readInt16 payload).2).2).2).1 = 0) := by
  rcases hop with hop | hop | hop <;> subst hop
  · have h1 : payload.length < 1 := hshort
    match payload, h1 with
    | [], _ =>
      refine ⟨_, handler_run s c 0x04 [] h, rfl, ?_, ?_, ?_, ?_⟩
      · intro e
        exact absurd e (by decide)
      · intro _
        exact ⟨rfl, rfl⟩
      · intro e
        exact absurd e (by decide)
      · intro e
        exact absurd e (by decide)
  · have h2 : payload.length < 2 := hshort
    have key : ∀ p : QByteArray, p.length < 2 →
        (controlPointSwitch (0x05 : Byte).val p).2 =
          [Effect.qDebug DebugText.newTargetPower [0]] ∧ readInt16 p = (0, []) := by
      intro p hp
      match p, hp with
      | [], _ => exact ⟨rfl, rfl⟩
      | [_], _ => exact ⟨rfl, rfl⟩
    obtain ⟨k1, k2⟩ := key payload h2
    have hrun := handler_run s c 0x05 payload h
    have hreply : (controlPointSwitch (0x05 : Byte).val payload).1 = [0x80, 0x05, 0x01] := by
      rw [controlPointSwitch_reply]
      rfl
    rw [k1, hreply] at hrun
    refine ⟨_, hrun, rfl, ?_, ?_, ?_, ?_⟩
    · intro _
      rfl
    · intro e
      exact absurd e (by decide)
    · intro _
      exact ⟨rfl, k2⟩
    · intro e
      exact absurd e (by decide)
  · have h6 : payload.length < 6 := hshort
    have hrun := handler_run s c 0x11 payload h
    have hreply : (controlPointSwitch (0x11 : Byte).val payload).1 = [0x80, 0x11, 0x01] := by
      rw [controlPointSwitch_reply]
      rfl
    have hlog : (controlPointSwitch (0x11 : Byte).val payload).2 =
        [Effect.qDebug DebugText.newGrade [(readInt16 (readInt16 payload).2).1]] := rfl
    rw [hlog, hreply] at hrun
    refine ⟨_, hrun, rfl, ?_, ?_, ?_, ?_⟩
    · intro e
      exact absurd e (by decide)
    · intro e
      exact absurd e (by decide)
    · intro e
      exact absurd e (by decide)
    · intro _
      refine ⟨(readInt16 (readInt16 payload).2).1, rfl, rfl, rfl, ?_, ?_, ?_, ?_, ?_⟩
      · intro hl
        match payload, hl with
        | [], _ => rfl
        | [_], _ => rfl
        | [_, _], _ => rfl
        | [_, _, _], _ => rfl
      · intro w0 w1 g0 g1 rest e
        subst e
        exact toInt16_little_endian g0 g1
      · intro hl
        match payload, hl with
        | [], _ => rfl
        | [_], _ => rfl
      · intro hl
        match payload, hl with
        | [], _ => rfl
        | [_], _ => rfl
        | [_, _], _ => rfl
        | [_, _, _], _ => rfl
        | [_, _, _, _], _ => rfl
      · match payload, h6 with
        | [], _ => rfl
        | [_], _ => rfl
        | [_, _], _ => rfl
        | [_, _, _], _ => rfl
        | [_, _, _, _], _ => rfl
        | [_, _, _, _, _], _ => rfl

/-- Witness of C5 (amended): the simulation-parameters frame `[0x11, 0x10, 0x00, 0x05]`,
cut inside the grade: the wind speed is read in full, the grade is logged as 0, the
indication is sent. -/
theorem truncated_payload_still_answered_witness :
    (started 7).hasCharacteristic cpUuid = true ∧
    ([0x10, 0x00, 0x05] : QByteArray).length < payloadWidth (0x11 : Byte).val ∧
    FTMSDevice.onIncomingControlPointCommand (started 7) cpUuid [0x11, 0x10, 0x00, 0x05] =
      Except.ok (started 7, [Effect.qDebug DebugText.newGrade [0],
        Effect.writeCharacteristic cpUuid [0x80, 0x11, 0x01]]) := by
  refine ⟨rfl, by decide, ?_⟩
  obtain ⟨effs, hrun, _, _, _, _, h11⟩ :=
    truncated_payload_still_answered (started 7) cpUuid 0x11 [0x10, 0x00, 0x05] rfl
      (Or.inr (Or.inr rfl)) (by decide)
  obtain ⟨grade, heffs, _, _, hzero, _⟩ := h11 rfl
  rw [hrun, heffs, hzero (by decide)]

/-- C6, as stated, fails: no component of the device state holds the target power.
From the same started device the frames `[0x05, 0xE8, 0x03]` (1000) and
`[0x05, 0x00, 0x00]` (0) lead to the same state, so no function of the state is 1000
after the first and 0 after the second. -/
theorem target_power_is_not_stored :
    ¬ ∃ targetPower : FTMSDevice → Int,
      (∀ s2 effs, FTMSDevice.onIncomingControlPointCommand (started 7) cpUuid
          [0x05, 0xE8, 0x03] = Except.ok (s2, effs) → targetPower s2 = 1000) ∧
      (∀ s2 effs, FTMSDevice.onIncomingControlPointCommand (started 7) cpUuid
          [0x05, 0x00, 0x00] = Except.ok (s2, effs) → targetPower s2 = 0) := by
  rintro ⟨f, h1, h2⟩
  have e1 := h1 (started 7) _ rfl
  have e2 := h2 (started 7) _ rfl
  omega

/-- C6, amended: for every set-target-power frame `[0x05, lo, hi]` the handler
completes, the response is `[0x80, 0x05, 0x01]`, and the target power it decodes and
logs equals the payload read as a little-endian signed 16-bit integer (`lo + 256*hi`
in two's complement); the value is not stored: the device state is unchanged. -/
theorem set_target_power_decoded (s : FTMSDevice) (c : Nat) (lo hi : Byte)
    (h : s.hasCharacteristic cpUuid = true) :
    ∃ effs, FTMSDevice.onIncomingControlPointCommand s c [0x05, lo, hi] =
        Except.ok (s, effs) ∧
      responses effs = [[0x80, 0x05, 0x01]] ∧
      logged DebugText.newTargetPower effs =
        [[if lo.val + 256 * hi.val < 32768 then ((lo.val + 256 * hi.val : Nat) : Int)
          else ((lo.val + 256 * hi.val : Nat) : Int) - 65536]] := by
  obtain ⟨effs, hrun, hresp, hlog⟩ := handler_responses s c 0x05 [lo, hi] h
  refine ⟨effs, hrun, ?_, ?_⟩
  · rw [hresp]
    rfl
  · rw [hlog]
    have hl := lo.isLt
    have hh := hi.isLt
    have e : (controlPointSwitch (0x05 : Byte).val [lo, hi]).2 =
        [Effect.qDebug DebugText.newTargetPower [toInt16 (lo.val + 256 * hi.val)]] := rfl
    rw [e]
    simp only [logged, if_true, toInt16]
    split_ifs <;> simp only [List.cons.injEq, and_true] <;> push_cast <;> omega

/-- Witness of C6 (amended): the frame `[0x05, 0xE8, 0x03]` logs the target power 1000
and is answered with `[0x80, 0x05, 0x01]`. -/
theorem set_target_power_decoded_witness :
    (started 7).hasCharacteristic cpUuid = true ∧
    ∃ effs, FTMSDevice.onIncomingControlPointCommand (started 7) cpUuid [0x05, 0xE8, 0x03] =
        Except.ok (started 7, effs) ∧
      responses effs = [[0x80, 0x05, 0x01]] ∧
      logged DebugText.newTargetPower effs = [[1000]] :=
  ⟨rfl, set_target_power_decoded (started 7) cpUuid 0xE8 0x03 rfl⟩

/-! ## Characteristic values built by `initialize` -/

/-- C7: the feature characteristic value built by a first `initialize` is the 8 bytes
of the little-endian `features` mask followed by the little-endian `settings` mask:
`[0x82, 0x40, 0, 0, 0x0C, 0x20, 0, 0]` when controllable and
`[0x02, 0x40, 0, 0, 0, 0, 0, 0]` when not; the two are distinct, and the value is a
function of the controllable flag alone.  The characteristic carrying it is in the
service data. -/
theorem feature_value (s : FTMSDevice) (addServiceOk : Bool) :
    (firstInit addServiceOk s).m_ftmsFeatureCharData.value
      = (if s.m_isControllable = true then [0x82, 0x40, 0x00, 0x00, 0x0C, 0x20, 0x00, 0x00]
         else [0x02, 0x40, 0x00, 0x00, 0x00, 0x00, 0x00, 0x00]) ∧
    (firstInit addServiceOk s).m_ftmsFeatureCharData.value.length = 8 ∧
    (firstInit addServiceOk s).m_ftmsFeatureCharData ∈
      (firstInit addServiceOk s).m_ftmsServiceData.characteristics ∧
    ([0x82, 0x40, 0x00, 0x00, 0x0C, 0x20, 0x00, 0x00] : QByteArray) ≠
      [0x02, 0x40, 0x00, 0x00, 0x00, 0x00, 0x00, 0x00] := by
  unfold firstInit
  refine ⟨?_, ?_, ?_, by decide⟩
  · cases hc : s.m_isControllable <;>
      simp [ FTMSDevice.initialize, QLowEnergyCharacteristicData.addDescriptor, hc] <;> rfl
  · cases hc : s.m_isControllable <;>
      simp [ FTMSDevice.initialize, QLowEnergyCharacteristicData.addDescriptor, hc] <;> rfl
  · cases hc : s.m_isControllable <;>
      simp [ FTMSDevice.initialize, QLowEnergyServiceData.addCharacteristic, hc]

theorem readInt16_writeInt16 (v : Int) (rest : QByteArray)
    (hlo : -32768 ≤ v) (hhi : v ≤ 32767) :
    readInt16 (writeInt16 [] v ++ rest) = (v, rest) := by
  simp only [writeInt16, writeUInt16, readInt16, List.nil_append, List.cons_append,
    toByte, toInt16, Prod.mk.injEq, and_true]
  omega

theorem readUInt16_writeUInt16 (v : Nat) (rest : QByteArray) (h : v ≤ 65535) :
    readUInt16 (writeUInt16 [] v ++ rest) = (v, rest) := by
  simp only [writeUInt16, readUInt16, List.nil_append, List.cons_append,
    toByte, Prod.mk.injEq, and_true]
  omega

theorem rangeData_eq (min max : Int) (step : Nat) :
    rangeData min max step =
      writeInt16 [] min ++ (writeInt16 [] max ++ (writeUInt16 [] step ++ [])) := by
  simp [rangeData, writeInt16, writeUInt16]

/-- C8: the power-range and resistance-range values built by a first `initialize` are
6 bytes each, laid out little-endian as `[min: int16][max: int16][step: uint16]`:
`[0x00, 0x00, 0x78, 0x05, 0x01, 0x00]` for power (0, 1400, 1) and
`[0x00, 0x00, 0x46, 0x00, 0x01, 0x00]` for resistance (0, 70, 1); and for every
`(min, max, step)` within the ranges of `int16`, `int16`, `uint16`, reading the three
little-endian fields back from the encoding returns `(min, max, step)` and uses up
the value. -/
theorem range_values (s : FTMSDevice) (addServiceOk : Bool) (min max : Int) (step : Nat)
    (hmin : -32768 ≤ min ∧ min ≤ 32767) (hmax : -32768 ≤ max ∧ max ≤ 32767)
    (hstep : step ≤ 65535) :
    (firstInit addServiceOk s).m_powerRangeCharData.value
      = [0x00, 0x00, 0x78, 0x05, 0x01, 0x00] ∧
    (firstInit addServiceOk s).m_powerRangeCharData.value.length = 6 ∧
    (firstInit addServiceOk s).m_resistanceRangeCharData.value
      = [0x00, 0x00, 0x46, 0x00, 0x01, 0x00] ∧
    (firstInit addServiceOk s).m_resistanceRangeCharData.value.length = 6 ∧
    (rangeData min max step).length = 6 ∧
    ∃ r1 r2, readInt16 (rangeData min max step) = (min, r1) ∧
      readInt16 r1 = (max, r2) ∧ readUInt16 r2 = (step, []) := by
  refine ⟨rfl, rfl, rfl, rfl, ?_, ?_⟩
  · simp [rangeData, writeInt16, writeUInt16]
  · rw [rangeData_eq]
    exact ⟨_, _, readInt16_writeInt16 min _ hmin.1 hmin.2,
      readInt16_writeInt16 max _ hmax.1 hmax.2, readUInt16_writeUInt16 step _ hstep⟩

/-- Witness of C8: the range (-5, 1400, 1) on a freshly constructed device. -/
theorem range_values_witness :
    ((-32768 : Int) ≤ -5 ∧ (-5 : Int) ≤ 32767) ∧
    ((-32768 : Int) ≤ 1400 ∧ (1400 : Int) ≤ 32767) ∧ (1 : Nat) ≤ 65535 ∧
    (started 7).m_powerRangeCharData.value = [0x00, 0x00, 0x78, 0x05, 0x01, 0x00] ∧
    (started 7).m_powerRangeCharData.value.length = 6 ∧
    (started 7).m_resistanceRangeCharData.value = [0x00, 0x00, 0x46, 0x00, 0x01, 0x00] ∧
    (started 7).m_resistanceRangeCharData.value.length = 6 ∧
    (rangeData (-5) 1400 1).length = 6 ∧
    ∃ r1 r2, readInt16 (rangeData (-5) 1400 1) = (-5, r1) ∧
      readInt16 r1 = (1400, r2) ∧ readUInt16 r2 = (1, []) :=
  ⟨by decide, by decide, by decide,
    range_values (FTMSDevice.create 7) true (-5) 1400 1 (by decide) (by decide) (by decide)⟩

/-- C9, as stated, fails: the power-range value that `initialize` builds from
(0, 1400, 1) has 6 bytes, not 5. -/
theorem range_value_is_not_five_bytes :
    (started 7).m_powerRangeCharData.value.length = 6 ∧
    (rangeData 0 1400 1).length ≠ 5 :=
  ⟨rfl, by decide⟩

/-- C9, amended: for every `(min, max, step)`, the range encoding used for the
power-range and resistance-range characteristics has exactly 6 bytes. -/
theorem range_value_is_six_bytes (min max : Int) (step : Nat) :
    (rangeData min max step).length = 6 := by
  simp [rangeData, writeInt16, writeUInt16]

/-! ## Telemetry tick -/

theorem tick_run (cadenceBits : Nat) (s : FTMSDevice)
    (h : s.hasCharacteristic FTMSDEVICE_INDOOR_BIKE_CHAR_UUID = true) :
    FTMSDevice.sendCurrentValues cadenceBits s =
      Except.ok (updateDummyValues cadenceBits s,
        [Effect.qDebug DebugText.newValuesSent
          [((updateDummyValues cadenceBits s).m_currentCadence : Int),
           (updateDummyValues cadenceBits s).m_currentPower,
           (((updateDummyValues cadenceBits s).m_currentSpeed / 100 : Nat) : Int)],
         Effect.writeCharacteristic FTMSDEVICE_INDOOR_BIKE_CHAR_UUID
           (cadencePowerFrame (updateDummyValues cadenceBits s).m_currentCadence
             (updateDummyValues cadenceBits s).m_currentPower),
         Effect.writeCharacteristic FTMSDEVICE_INDOOR_BIKE_CHAR_UUID
           (speedFrame (updateDummyValues cadenceBits s).m_currentSpeed)]) := by
  unfold FTMSDevice.hasCharacteristic at h
  have hsame : (updateDummyValues cadenceBits s).m_ftmsService = s.m_ftmsService := rfl
  cases hsv : s.m_ftmsService with
  | none => simp [hsv] at h
  | some service =>
    simp only [hsv] at h
    cases hch : service.characteristic FTMSDEVICE_INDOOR_BIKE_CHAR_UUID with
    | none => simp [hch] at h
    | some ch =>
      have hu : ch.uuid = FTMSDEVICE_INDOOR_BIKE_CHAR_UUID := find_uuid _ _ _ hch
      simp only [FTMSDevice.sendCurrentValues, hsame, hsv, hch, hu]

/-- C10: for every telemetry state whose increments do not overflow the member types
(and a registered service with the indoor-bike-data characteristic), one tick of
`sendCurrentValues` completes and sets cadence to 80 if cadence+1 > 120 and to
cadence+1 otherwise, power to 150 if power+1 > 400 and to power+1 otherwise, speed to
500 if speed+100 > 3000 and to speed+100 otherwise.  In particular cadence 119 goes to
120, cadence 120 to 80, power 400 to 150 and speed 3000 to 500. -/
theorem tick_advances_telemetry (cadenceBits : Nat) (s : FTMSDevice)
    (h : s.hasCharacteristic FTMSDEVICE_INDOOR_BIKE_CHAR_UUID = true)
    (hc : s.m_currentCadence + 1 < 2 ^ cadenceBits)
    (hp : -32768 ≤ s.m_currentPower + 1 ∧ s.m_currentPower + 1 ≤ 32767)
    (hs : s.m_currentSpeed + 100 ≤ 65535) :
    ∃ s2 effs, FTMSDevice.sendCurrentValues cadenceBits s = Except.ok (s2, effs) ∧
      s2.m_currentCadence =
        (if s.m_currentCadence + 1 > 120 then 80 else s.m_currentCadence + 1) ∧
      s2.m_currentPower =
        (if s.m_currentPower + 1 > 400 then 150 else s.m_currentPower + 1) ∧
      s2.m_currentSpeed =
        (if s.m_currentSpeed + 100 > 3000 then 500 else s.m_currentSpeed + 100) ∧
      (s.m_currentCadence = 119 → s2.m_currentCadence = 120) ∧
      (s.m_currentCadence = 120 → s2.m_currentCadence = 80) ∧
      (s.m_currentPower = 400 → s2.m_currentPower = 150) ∧
      (s.m_currentSpeed = 3000 → s2.m_currentSpeed = 500) := by
  have ec : (s.m_currentCadence + 1) % 2 ^ cadenceBits = s.m_currentCadence + 1 :=
    Nat.mod_eq_of_lt hc
  have ep : toInt16 (s.m_currentPower + 1) = s.m_currentPower + 1 := by
    unfold toInt16
    omega
  have es : toUInt16 (s.m_currentSpeed + 100) = s.m_currentSpeed + 100 := by
    unfold toUInt16
    omega
  refine ⟨_, _, tick_run cadenceBits s h, ?_⟩
  simp only [updateDummyValues, ec, ep, es]
  refine ⟨trivial, trivial, trivial, ?_, ?_, ?_, ?_⟩ <;> intro e <;> simp [e]

/-- Witness of C10: a started device at the wrap boundaries (cadence 120, power 400,
speed 3000), with an 8-bit cadence member. -/
theorem tick_advances_telemetry_witness :
    ∃ s2 effs,
      FTMSDevice.sendCurrentValues 8
        { started 7 with m_currentCadence := 120, m_currentPower := 400,
                         m_currentSpeed := 3000 } = Except.ok (s2, effs) ∧
      s2.m_currentCadence = 80 ∧ s2.m_currentPower = 150 ∧ s2.m_currentSpeed = 500 := by
  obtain ⟨s2, effs, hrun, h1, h2, h3, _⟩ :=
    tick_advances_telemetry 8
      { started 7 with m_currentCadence := 120, m_currentPower := 400,
                       m_currentSpeed := 3000 } rfl (by decide) (by decide) (by decide)
  exact ⟨s2, effs, hrun, h1, h2, h3⟩

/-! ## Notification frames of a tick -/

theorem cadencePowerFrame_bytes (cadence : Nat) (power : Int) :
    cadencePowerFrame cadence power =
      [0x45, 0x00, toByte (2 * cadence), toByte (2 * cadence / 256),
       toByte (power % 65536).toNat, toByte ((power % 65536).toNat / 256)] := by
  have e1 : toByte (toUInt16 (cadence * 2)) = toByte (2 * cadence) := by
    apply Fin.ext
    simp only [toByte, toUInt16]
    omega
  have e2 : toByte (toUInt16 (cadence * 2) / 256) = toByte (2 * cadence / 256) := by
    apply Fin.ext
    simp only [toByte, toUInt16]
    omega
  simp only [cadencePowerFrame, writeInt16, writeUInt16, List.nil_append, List.cons_append,
    e1, e2]
  rfl

theorem speedFrame_bytes (speed : Nat) :
    speedFrame speed = [0x00, 0x00, toByte speed, toByte (speed / 256)] := by
  simp only [speedFrame, writeUInt16, List.nil_append, List.cons_append]
  rfl

/-- C11: every tick of `sendCurrentValues` (on a device whose registered service has
the indoor-bike-data characteristic) completes and writes exactly two values to the
indoor-bike-data characteristic, in this order and both built from the values after
the advance: the 6-byte frame `[0x45, 0x00]`, little-endian uint16 of twice the
cadence, little-endian int16 of the power; then the 4-byte frame `[0x00, 0x00]`,
little-endian uint16 of the speed. -/
theorem tick_sends_two_frames (cadenceBits : Nat) (s : FTMSDevice)
    (h : s.hasCharacteristic FTMSDEVICE_INDOOR_BIKE_CHAR_UUID = true) :
    ∃ s2 effs frame1 frame2,
      FTMSDevice.sendCurrentValues cadenceBits s = Except.ok (s2, effs) ∧
      s2 = updateDummyValues cadenceBits s ∧
      effs = [Effect.qDebug DebugText.newValuesSent
                [(s2.m_currentCadence : Int), s2.m_currentPower,
                 ((s2.m_currentSpeed / 100 : Nat) : Int)],
              Effect.writeCharacteristic FTMSDEVICE_INDOOR_BIKE_CHAR_UUID frame1,
              Effect.writeCharacteristic FTMSDEVICE_INDOOR_BIKE_CHAR_UUID frame2] ∧
      responses effs = [frame1, frame2] ∧
      frame1 = [0x45, 0x00,
                toByte (2 * s2.m_currentCadence), toByte (2 * s2.m_currentCadence / 256),
                toByte (s2.m_currentPower % 65536).toNat,
                toByte ((s2.m_currentPower % 65536).toNat / 256)] ∧
      frame2 = [0x00, 0x00, toByte s2.m_currentSpeed, toByte (s2.m_currentSpeed / 256)] ∧
      frame1.length = 6 ∧ frame2.length = 4 := by
  refine ⟨_, _, _, _, tick_run cadenceBits s h, rfl, rfl, rfl,
    cadencePowerFrame_bytes _ _, speedFrame_bytes _, ?_, ?_⟩
  · rw [cadencePowerFrame_bytes]
    rfl
  · rw [speedFrame_bytes]
    rfl

/-- Witness of C11: the first tick after construction and start-up (cadence 80, power
150, speed 500 before the tick) sends `[0x45, 0x00, 0xA2, 0x00, 0x97, 0x00]` and then
`[0x00, 0x00, 0x58, 0x02]`. -/
theorem tick_sends_two_frames_witness :
    (started 7).hasCharacteristic FTMSDEVICE_INDOOR_BIKE_CHAR_UUID = true ∧
    ∃ s2 effs,
      FTMSDevice.sendCurrentValues 8 (started 7) = Except.ok (s2, effs) ∧
      responses effs = [[0x45, 0x00, 0xA2, 0x00, 0x97, 0x00], [0x00, 0x00, 0x58, 0x02]] := by
  refine ⟨rfl, ?_⟩
  obtain ⟨s2, effs, f1, f2, hrun, hs2, _, hresp, hf1, hf2, _⟩ :=
    tick_sends_two_frames 8 (started 7) rfl
  refine ⟨s2, effs, hrun, ?_⟩
  rw [hresp, hf1, hf2, hs2]
  rfl

/-! ## The service built by `initialize` -/

/-- C12: for a device whose service data holds no characteristic yet (as the
constructor leaves it), the characteristic list of the service built by a first
`initialize` is, in order, indoor-bike-data (0x2AD2, Notify), control-point (0x2AD9,
Write and Indicate), feature (0x2ACC, Read), status (0x2ADA, Notify), followed by
power-range (0x2AD8, Read) and resistance-range (0x2AD6, Read) exactly when the
device is controllable; this is the service data passed to `addService`; and every
characteristic of the list carries a client-characteristic-configuration descriptor
(0x2902) whose value is the two bytes `[0x00, 0x00]`. -/
theorem service_characteristics (s : FTMSDevice) (addServiceOk : Bool)
    (hfresh : s.m_ftmsServiceData.characteristics = []) :
    (firstInit addServiceOk s).m_ftmsServiceData.characteristics.map
        (fun ch => (ch.uuid, ch.properties)) =
      [(0x2AD2, PropertyNotify), (0x2AD9, PropertyWrite ||| PropertyIndicate),
       (0x2ACC, PropertyRead), (0x2ADA, PropertyNotify)] ++
      (if s.m_isControllable = true then [(0x2AD8, PropertyRead), (0x2AD6, PropertyRead)]
       else []) ∧
    ((firstInit addServiceOk s).m_ftmsServiceData.characteristics.length = 6 ↔
      s.m_isControllable = true) ∧
    Effect.addService (firstInit addServiceOk s).m_ftmsServiceData ∈
      Prod.snd (Prod.snd ( FTMSDevice.initialize false addServiceOk s)) ∧
    ∀ ch ∈ (firstInit addServiceOk s).m_ftmsServiceData.characteristics,
      ∃ d ∈ ch.descriptors,
        d.uuid = ClientCharacteristicConfiguration ∧ d.value = [0x00, 0x00] := by
  unfold firstInit
  have key : ∀ l : List QLowEnergyDescriptorData, ∃ d,
      (d ∈ l ∨ d = { uuid := ClientCharacteristicConfiguration, value := [0, 0] }) ∧
        d.uuid = ClientCharacteristicConfiguration ∧ d.value = [0, 0] :=
    fun _ => ⟨_, Or.inr rfl, rfl, rfl⟩
  cases hc : s.m_isControllable <;>
    simp [ FTMSDevice.initialize, QLowEnergyServiceData.addCharacteristic,
      QLowEnergyCharacteristicData.addDescriptor, hfresh, hc, clientConfig, zeroConfig]
  · exact ⟨key _, key _, key _, key _⟩
  · exact ⟨key _, key _, key _, key _, key _, key _⟩

/-- Witness of C12: the device as constructed (controllable), started: six
characteristics, each with the single descriptor (0x2902, `[0x00, 0x00]`). -/
theorem service_characteristics_witness :
    (FTMSDevice.create 7).m_ftmsServiceData.characteristics = [] ∧
    (started 7).m_ftmsServiceData.characteristics.map
        (fun ch => (ch.uuid, ch.properties, ch.descriptors)) =
      [(0x2AD2, 0x10, [{ uuid := 0x2902, value := [0x00, 0x00] }]),
       (0x2AD9, 0x28, [{ uuid := 0x2902, value := [0x00, 0x00] }]),
       (0x2ACC, 0x02, [{ uuid := 0x2902, value := [0x00, 0x00] }]),
       (0x2ADA, 0x10, [{ uuid := 0x2902, value := [0x00, 0x00] }]),
       (0x2AD8, 0x02, [{ uuid := 0x2902, value := [0x00, 0x00] }]),
       (0x2AD6, 0x02, [{ uuid := 0x2902, value := [0x00, 0x00] }])] ∧
    (started 7).m_ftmsServiceData.characteristics.map
        (fun ch => (ch.uuid, ch.properties)) =
      [(0x2AD2, PropertyNotify), (0x2AD9, PropertyWrite ||| PropertyIndicate),
       (0x2ACC, PropertyRead), (0x2ADA, PropertyNotify)] ++
      (if (FTMSDevice.create 7).m_isControllable = true then
        [(0x2AD8, PropertyRead), (0x2AD6, PropertyRead)]
       else []) :=
  ⟨rfl, rfl, (service_characteristics (FTMSDevice.create 7) true rfl).1⟩

/-- C14: `initialize` is guarded by a once-only latch: whatever the state and the
latch before, after one call the latch is set, and a second call returns the state
of the first unchanged and makes no call at all (no service registered, no
advertising started, no timer armed, no handler connected), so two calls yield the
state and the effects of one. -/
theorem initialize_twice (isInitialized ok1 ok2 : Bool) (s : FTMSDevice) :
    Prod.fst ( FTMSDevice.initialize isInitialized ok1 s) = true ∧
    FTMSDevice.initialize (Prod.fst ( FTMSDevice.initialize isInitialized ok1 s)) ok2
        (Prod.fst (Prod.snd ( FTMSDevice.initialize isInitialized ok1 s))) =
      (true, Prod.fst (Prod.snd ( FTMSDevice.initialize isInitialized ok1 s)), []) ∧
    Prod.snd (Prod.snd ( FTMSDevice.initialize isInitialized ok1 s)) ++
        Prod.snd (Prod.snd ( FTMSDevice.initialize
          (Prod.fst ( FTMSDevice.initialize isInitialized ok1 s)) ok2
          (Prod.fst (Prod.snd ( FTMSDevice.initialize isInitialized ok1 s))))) =
      Prod.snd (Prod.snd ( FTMSDevice.initialize isInitialized ok1 s)) := by
  cases isInitialized <;> simp [ FTMSDevice.initialize]

/-! ## Malformed frames -/

/-- C13, as stated, fails: on a started device the empty frame violates
`Q_ASSERT(b.size() >= 1)`, and the truncated set-target-power frame `[0x05]` is not
a no-op, it is answered with `[0x80, 0x05, 0x01]`. -/
theorem empty_frame_violates_assertion :
    FTMSDevice.onIncomingControlPointCommand (started 7) cpUuid [] =
      Except.error Fault.assertion ∧
    FTMSDevice.onIncomingControlPointCommand (started 7) cpUuid [0x05] =
      Except.ok (started 7, [Effect.qDebug DebugText.newTargetPower [0],
        Effect.writeCharacteristic cpUuid [0x80, 0x05, 0x01]]) :=
  ⟨rfl, rfl⟩

/-- C13, amended: for every non-empty inbound byte sequence, frames truncated inside
a payload included, the handler (on a device whose registered service has the
control-point characteristic) completes without violating an assertion and changes
no device state; a frame whose first byte is not an implemented opcode gets no
response.  The empty frame violates the assertion on the frame size. -/
theorem non_empty_frame_never_faults (s : FTMSDevice) (c : Nat) (b : QByteArray)
    (h : s.hasCharacteristic cpUuid = true) :
    (b ≠ [] →
      ∃ effs, FTMSDevice.onIncomingControlPointCommand s c b = Except.ok (s, effs) ∧
        (∀ b0 rest, b = b0 :: rest →
          b0 ∉ ([0x00, 0x01, 0x04, 0x05, 0x07, 0x11] : List Byte) → responses effs = [])) ∧
    (b = [] → FTMSDevice.onIncomingControlPointCommand s c b = Except.error Fault.assertion) := by
  constructor
  · intro hb
    match b, hb with
    | b0 :: rest, _ =>
      obtain ⟨effs, hrun, hresp, _⟩ := handler_responses s c b0 rest h
      refine ⟨effs, hrun, ?_⟩
      intro b1 rest1 hcons hnot
      have e0 : b0 = b1 := (List.cons.inj hcons).1
      subst e0
      have hi : ¬ implemented b0.val = true := fun hi => hnot (mem_of_implemented b0 hi)
      rw [hresp, if_neg hi]
  · intro hb
    subst hb
    rfl

/-- Witness of C13 (amended): the frame `[0x11, 0x01]`, truncated inside the
simulation parameters, on a started device. -/
theorem non_empty_frame_never_faults_witness :
    (started 7).hasCharacteristic cpUuid = true ∧
    ∃ effs, FTMSDevice.onIncomingControlPointCommand (started 7) cpUuid [0x11, 0x01] =
      Except.ok (started 7, effs) :=
  ⟨rfl, ((non_empty_frame_never_faults (started 7) cpUuid [0x11, 0x01] rfl).1
    (by decide)).imp (fun _ hx => hx.1)⟩

/-! ## Disconnect -/

/-- C15, as stated, fails: when the re-registration returns no service,
`restartAdvertising` on a started device calls `addService` only; advertising is not
restarted and the service pointer is left null. -/
theorem failed_registration_stops_advertising :
    FTMSDevice.restartAdvertising false (started 7) =
      Except.ok ({ started 7 with m_ftmsService := none },
        [Effect.addService (started 7).m_ftmsServiceData]) ∧
    Effect.startAdvertising (started 7).m_advertisingData (started 7).m_advertisingData ∉
      [Effect.addService (started 7).m_ftmsServiceData] :=
  ⟨rfl, by decide⟩

/-- C15, amended: on a disconnect, `restartAdvertising` (on a device that has its
controller) re-registers the FTMS service data with the controller and, when the
re-registration returns a service, then restarts advertising with the device's
advertising data, which it leaves unchanged; when the re-registration returns
null, it makes no further call and the service pointer is null. -/
theorem restart_advertising_effects (addServiceOk : Bool) (s : FTMSDevice)
    (hc : s.m_controller.isSome = true) :
    ∃ s2 effs, FTMSDevice.restartAdvertising addServiceOk s = Except.ok (s2, effs) ∧
      s2 = { s with m_ftmsService :=
              if addServiceOk = true then some { data := s.m_ftmsServiceData } else none } ∧
      (addServiceOk = true →
        effs = [Effect.addService s.m_ftmsServiceData,
                Effect.startAdvertising s.m_advertisingData s.m_advertisingData]) ∧
      (addServiceOk = false → effs = [Effect.addService s.m_ftmsServiceData]) := by
  cases hctl : s.m_controller with
  | none => simp [hctl] at hc
  | some u =>
    cases addServiceOk <;> simp [FTMSDevice.restartAdvertising, hctl]

/-- Witness of C15 (amended): a started device whose re-registration succeeds
restarts advertising with the advertising data that `initialize` advertised. -/
theorem restart_advertising_effects_witness :
    (started 7).m_controller.isSome = true ∧
    Effect.startAdvertising (started 7).m_advertisingData (started 7).m_advertisingData ∈
      Prod.snd (Prod.snd ( FTMSDevice.initialize false true (FTMSDevice.create 7))) ∧
    ∃ s2 effs, FTMSDevice.restartAdvertising true (started 7) = Except.ok (s2, effs) ∧
      effs = [Effect.addService (started 7).m_ftmsServiceData,
              Effect.startAdvertising (started 7).m_advertisingData
                (started 7).m_advertisingData] := by
  refine ⟨rfl, by decide, ?_⟩
  obtain ⟨s2, effs, hrun, _, hok, _⟩ := restart_advertising_effects true (started 7) rfl
  exact ⟨s2, effs, hrun, hok rfl⟩

/-! ## Reachable telemetry states -/

theorem updateDummyValues_bounds (cadenceBits : Nat) (s : FTMSDevice) (hbits : 7 ≤ cadenceBits)
    (hc : 80 ≤ s.m_currentCadence ∧ s.m_currentCadence ≤ 120)
    (hp : 150 ≤ s.m_currentPower ∧ s.m_currentPower ≤ 400)
    (hs : 500 ≤ s.m_currentSpeed ∧ s.m_currentSpeed ≤ 3000 ∧ 100 ∣ s.m_currentSpeed) :
    (80 ≤ (updateDummyValues cadenceBits s).m_currentCadence ∧
      (updateDummyValues cadenceBits s).m_currentCadence ≤ 120) ∧
    (150 ≤ (updateDummyValues cadenceBits s).m_currentPower ∧
      (updateDummyValues cadenceBits s).m_currentPower ≤ 400) ∧
    (500 ≤ (updateDummyValues cadenceBits s).m_currentSpeed ∧
      (updateDummyValues cadenceBits s).m_currentSpeed ≤ 3000 ∧
      100 ∣ (updateDummyValues cadenceBits s).m_currentSpeed) := by
  have hpow : 128 ≤ 2 ^ cadenceBits := by
    calc 128 = 2 ^ 7 := by norm_num
      _ ≤ 2 ^ cadenceBits := Nat.pow_le_pow_right (by norm_num) hbits
  have ec : (s.m_currentCadence + 1) % 2 ^ cadenceBits = s.m_currentCadence + 1 :=
    Nat.mod_eq_of_lt (by omega)
  have ep : toInt16 (s.m_currentPower + 1) = s.m_currentPower + 1 := by
    unfold toInt16
    omega
  have es : toUInt16 (s.m_currentSpeed + 100) = s.m_currentSpeed + 100 := by
    unfold toUInt16
    omega
  simp only [updateDummyValues, ec, ep, es]
  refine ⟨?_, ?_, ?_⟩
  · split_ifs <;> omega
  · split_ifs <;> omega
  · obtain ⟨h1, h2, h3⟩ := hs
    split_ifs
    · exact ⟨by omega, by omega, by norm_num⟩
    · exact ⟨by omega, by omega, Dvd.dvd.add h3 (dvd_refl 100)⟩

theorem runTicks_bounds (cadenceBits : Nat) (hbits : 7 ≤ cadenceBits) (n : Nat) :
    ∀ s : FTMSDevice, s.hasCharacteristic FTMSDEVICE_INDOOR_BIKE_CHAR_UUID = true →
      (80 ≤ s.m_currentCadence ∧ s.m_currentCadence ≤ 120) →
      (150 ≤ s.m_currentPower ∧ s.m_currentPower ≤ 400) →
      (500 ≤ s.m_currentSpeed ∧ s.m_currentSpeed ≤ 3000 ∧ 100 ∣ s.m_currentSpeed) →
      ∃ s2 effs, runTicks cadenceBits n s = Except.ok (s2, effs) ∧
        s2.hasCharacteristic FTMSDEVICE_INDOOR_BIKE_CHAR_UUID = true ∧
        (80 ≤ s2.m_currentCadence ∧ s2.m_currentCadence ≤ 120) ∧
        (150 ≤ s2.m_currentPower ∧ s2.m_currentPower ≤ 400) ∧
        (500 ≤ s2.m_currentSpeed ∧ s2.m_currentSpeed ≤ 3000 ∧ 100 ∣ s2.m_currentSpeed) := by
  induction n with
  | zero =>
    intro s h hc hp hs
    exact ⟨s, [], rfl, h, hc, hp, hs⟩
  | succ n ih =>
    intro s h hc hp hs
    obtain ⟨b1, b2, b3⟩ := updateDummyValues_bounds cadenceBits s hbits hc hp hs
    have h1 : (updateDummyValues cadenceBits s).hasCharacteristic
        FTMSDEVICE_INDOOR_BIKE_CHAR_UUID = true := h
    obtain ⟨s2, effs2, hrun, hrest⟩ := ih (updateDummyValues cadenceBits s) h1 b1 b2 b3
    simp only [runTicks, tick_run cadenceBits s h, hrun]
    exact ⟨_, _, rfl, hrest⟩

/-- C16: starting from the telemetry values the constructor sets (cadence 80, power
150, speed 500), on a device whose registered service has the indoor-bike-data
characteristic and whose cadence member has at least 7 bits, every number `n` of
ticks of `sendCurrentValues` completes, and the state then has 80 <= cadence <= 120,
150 <= power <= 400, 500 <= speed <= 3000 and a speed that is a multiple of 100. -/
theorem telemetry_invariant (cadenceBits n : Nat) (s : FTMSDevice) (hbits : 7 ≤ cadenceBits)
    (h : s.hasCharacteristic FTMSDEVICE_INDOOR_BIKE_CHAR_UUID = true)
    (hstart : s.m_currentCadence = (FTMSDevice.create s.m_devId).m_currentCadence ∧
      s.m_currentPower = (FTMSDevice.create s.m_devId).m_currentPower ∧
      s.m_currentSpeed = (FTMSDevice.create s.m_devId).m_currentSpeed) :
    ∃ s2 effs, runTicks cadenceBits n s = Except.ok (s2, effs) ∧
      (80 ≤ s2.m_currentCadence ∧ s2.m_currentCadence ≤ 120) ∧
      (150 ≤ s2.m_currentPower ∧ s2.m_currentPower ≤ 400) ∧
      (500 ≤ s2.m_currentSpeed ∧ s2.m_currentSpeed ≤ 3000) ∧
      s2.m_currentSpeed % 100 = 0 := by
  obtain ⟨e1, e2, e3⟩ := hstart
  have e1b : s.m_currentCadence = 80 := e1
  have e2b : s.m_currentPower = 150 := e2
  have e3b : s.m_currentSpeed = 500 := e3
  obtain ⟨s2, effs, hrun, _, b1, b2, b3, b4, b5⟩ :=
    runTicks_bounds cadenceBits hbits n s h (by omega) (by omega)
      ⟨by omega, by omega, by rw [e3b]; norm_num⟩
  exact ⟨s2, effs, hrun, b1, b2, ⟨b3, b4⟩, Nat.mod_eq_zero_of_dvd b5⟩

/-- Witness of C16: 41 ticks of a started device with an 8-bit cadence member; the
cadence has wrapped from 120 back to 80. -/
theorem telemetry_invariant_witness :
    ∃ s2 effs, runTicks 8 41 (started 7) = Except.ok (s2, effs) ∧
      (80 ≤ s2.m_currentCadence ∧ s2.m_currentCadence ≤ 120) ∧
      (150 ≤ s2.m_currentPower ∧ s2.m_currentPower ≤ 400) ∧
      (500 ≤ s2.m_currentSpeed ∧ s2.m_currentSpeed ≤ 3000) ∧
      s2.m_currentSpeed % 100 = 0 :=
  telemetry_invariant 8 41 (started 7) (by decide) rfl ⟨rfl, rfl, rfl⟩

theorem cadencePowerFrame_decode (cadence : Nat) (power : Int)
    (hc : 2 * cadence ≤ 65535) (hp : -32768 ≤ power ∧ power ≤ 32767) :
    ∃ r1 r2, readUInt16 (cadencePowerFrame cadence power) = (0x0045, r1) ∧
      readUInt16 r1 = (2 * cadence, r2) ∧ readInt16 r2 = (power, []) := by
  have e : cadencePowerFrame cadence power =
      writeUInt16 [] 0x0045 ++ (writeUInt16 [] (toUInt16 (cadence * 2)) ++
        (writeInt16 [] power ++ [])) := by
    simp [cadencePowerFrame, writeInt16, writeUInt16]
  have ec : toUInt16 (cadence * 2) = 2 * cadence := by
    unfold toUInt16
    omega
  rw [e, ec]
  exact ⟨_, _, readUInt16_writeUInt16 0x0045 _ (by norm_num),
    readUInt16_writeUInt16 (2 * cadence) _ hc, readInt16_writeInt16 power _ hp.1 hp.2⟩

theorem speedFrame_decode (speed : Nat) (hs : speed ≤ 65535) :
    ∃ r1, readUInt16 (speedFrame speed) = (0x0000, r1) ∧ readUInt16 r1 = (speed, []) := by
  have e : speedFrame speed = writeUInt16 [] 0x0000 ++ (writeUInt16 [] speed ++ []) := by
    simp [speedFrame, writeUInt16]
  rw [e]
  exact ⟨_, readUInt16_writeUInt16 0x0000 _ (by norm_num), readUInt16_writeUInt16 speed _ hs⟩

/-- C17: no truncation on the wire.  From the telemetry values the constructor sets,
after any number `n` of ticks (device with the indoor-bike-data characteristic
registered, cadence member of at least 7 bits) the state `s1` has
`(quint16)(cadence*2) = 2*cadence <= 240`, and the next tick sends two frames whose
little-endian fields decode to the flags 0x0045, twice the model's cadence (again
without wrap-around, at most 240) and the model's power, and to the flags 0x0000
and the model's speed, each decoding using up its frame. -/
theorem wire_fields_decode (cadenceBits n : Nat) (s : FTMSDevice) (hbits : 7 ≤ cadenceBits)
    (h : s.hasCharacteristic FTMSDEVICE_INDOOR_BIKE_CHAR_UUID = true)
    (hstart : s.m_currentCadence = (FTMSDevice.create s.m_devId).m_currentCadence ∧
      s.m_currentPower = (FTMSDevice.create s.m_devId).m_currentPower ∧
      s.m_currentSpeed = (FTMSDevice.create s.m_devId).m_currentSpeed) :
    ∃ s1 effs1, runTicks cadenceBits n s = Except.ok (s1, effs1) ∧
      toUInt16 (s1.m_currentCadence * 2) = 2 * s1.m_currentCadence ∧
      2 * s1.m_currentCadence ≤ 240 ∧
      ∃ s2 effs frame1 frame2,
        FTMSDevice.sendCurrentValues cadenceBits s1 = Except.ok (s2, effs) ∧
        responses effs = [frame1, frame2] ∧
        toUInt16 (s2.m_currentCadence * 2) = 2 * s2.m_currentCadence ∧
        2 * s2.m_currentCadence ≤ 240 ∧
        (∃ r1 r2, readUInt16 frame1 = (0x0045, r1) ∧
          readUInt16 r1 = (2 * s2.m_currentCadence, r2) ∧
          readInt16 r2 = (s2.m_currentPower, [])) ∧
        (∃ r1, readUInt16 frame2 = (0x0000, r1) ∧
          readUInt16 r1 = (s2.m_currentSpeed, [])) := by
  obtain ⟨e1, e2, e3⟩ := hstart
  have e1b : s.m_currentCadence = 80 := e1
  have e2b : s.m_currentPower = 150 := e2
  have e3b : s.m_currentSpeed = 500 := e3
  obtain ⟨s1, effs1, hrun, h1, c1, p1, sp1⟩ :=
    runTicks_bounds cadenceBits hbits n s h (by omega) (by omega)
      ⟨by omega, by omega, by rw [e3b]; norm_num⟩
  obtain ⟨c2, p2, sp2⟩ := updateDummyValues_bounds cadenceBits s1 hbits c1 p1 sp1
  refine ⟨s1, effs1, hrun, ?_, by omega, updateDummyValues cadenceBits s1, _, _, _,
    tick_run cadenceBits s1 h1, rfl, ?_, by omega, ?_, ?_⟩
  · unfold toUInt16
    omega
  · unfold toUInt16
    omega
  · exact cadencePowerFrame_decode _ _ (by omega) ⟨by omega, by omega⟩
  · exact speedFrame_decode _ (by omega)

/-- Witness of C17: a started device with an 8-bit cadence member after 40 ticks
(cadence 120, twice that is 240) and the frames of its 41st tick. -/
theorem wire_fields_decode_witness :
    ∃ s1 effs1, runTicks 8 40 (started 7) = Except.ok (s1, effs1) ∧
      toUInt16 (s1.m_currentCadence * 2) = 2 * s1.m_currentCadence ∧
      2 * s1.m_currentCadence ≤ 240 ∧
      ∃ s2 effs frame1 frame2,
        FTMSDevice.sendCurrentValues 8 s1 = Except.ok (s2, effs) ∧
        responses effs = [frame1, frame2] ∧
        toUInt16 (s2.m_currentCadence * 2) = 2 * s2.m_currentCadence ∧
        2 * s2.m_currentCadence ≤ 240 ∧
        (∃ r1 r2, readUInt16 frame1 = (0x0045, r1) ∧
          readUInt16 r1 = (2 * s2.m_currentCadence, r2) ∧
          readInt16 r2 = (s2.m_currentPower, [])) ∧
        (∃ r1, readUInt16 frame2 = (0x0000, r1) ∧
          readUInt16 r1 = (s2.m_currentSpeed, [])) :=
  wire_fields_decode 8 40 (started 7) (by decide) rfl ⟨rfl, rfl, rfl⟩

/-! ## Control commands and telemetry -/

theorem handler_state (s : FTMSDevice) (c : Nat) (b : QByteArray) (s2 : FTMSDevice)
    (effs : List Effect)
    (hrun : FTMSDevice.onIncomingControlPointCommand s c b = Except.ok (s2, effs)) :
    s2 = s := by
  unfold FTMSDevice.onIncomingControlPointCommand at hrun
  split at hrun
  · split at hrun
    · cases hrun
    · split at hrun
      · cases hrun
      · simp only at hrun
        split at hrun <;> simp only [Except.ok.injEq, Prod.mk.injEq] at hrun <;>
          exact hrun.1.symm
  · cases hrun

theorem handleAll_state (frames : List QByteArray) :
    ∀ (s s2 : FTMSDevice) (effs : List Effect),
      handleAll frames s = Except.ok (s2, effs) → s2 = s := by
  induction frames with
  | nil =>
    intro s s2 effs hrun
    simp only [handleAll, Except.ok.injEq, Prod.mk.injEq] at hrun
    exact hrun.1.symm
  | cons b frames ih =>
    intro s s2 effs hrun
    unfold handleAll at hrun
    split at hrun
    · cases hrun
    · rename_i s1 effs1 h1
      have e1 : s1 = s := handler_state s _ b s1 effs1 h1
      subst e1
      split at hrun
      · cases hrun
      · rename_i s3 effs3 h3
        simp only [Except.ok.injEq, Prod.mk.injEq] at hrun
        rw [← hrun.1]
        exact ih s1 s3 effs3 h3

theorem handleAll_completes (frames : List QByteArray) (s : FTMSDevice)
    (h : s.hasCharacteristic cpUuid = true) (hne : ∀ b ∈ frames, b ≠ []) :
    ∃ effs, handleAll frames s = Except.ok (s, effs) := by
  induction frames with
  | nil => exact ⟨[], rfl⟩
  | cons b frames ih =>
    obtain ⟨effs2, h2⟩ := ih (fun x hx => hne x (List.mem_cons_of_mem b hx))
    have hb : b ≠ [] := hne b (List.mem_cons_self b frames)
    match b, hb with
    | b0 :: rest, _ =>
      have h1 := handler_run s cpUuid b0 rest h
      simp only [handleAll, h1, h2]
      exact ⟨_, rfl⟩

theorem tick_state (cadenceBits : Nat) (s s2 : FTMSDevice) (effs : List Effect)
    (hrun : FTMSDevice.sendCurrentValues cadenceBits s = Except.ok (s2, effs)) :
    s2 = updateDummyValues cadenceBits s := by
  unfold FTMSDevice.sendCurrentValues at hrun
  simp only at hrun
  split at hrun
  · cases hrun
  · split at hrun
    · cases hrun
    · simp only [Except.ok.injEq, Prod.mk.injEq] at hrun
      exact hrun.1.symm

/-- C18: control commands and telemetry do not interfere.  For every inbound frame
the handler, when it completes, leaves the whole device state unchanged, heart rate,
power, cadence and speed included; so does any sequence of frames, and the ticks run
afterwards (any number) give the result, state and notification frames, they give
without the commands; sequences of non-empty frames do complete on a device whose
service has the control-point characteristic.  A tick changes cadence, power and
speed only: heart rate, device id, the controllable flag and every other member
stay as they were. -/
theorem commands_and_telemetry_independent (cadenceBits : Nat) (s : FTMSDevice) :
    (∀ (c : Nat) (b : QByteArray) (s2 : FTMSDevice) (effs : List Effect),
      FTMSDevice.onIncomingControlPointCommand s c b = Except.ok (s2, effs) →
        s2 = s ∧ s2.m_currentHeartrate = s.m_currentHeartrate ∧
        s2.m_currentPower = s.m_currentPower ∧ s2.m_currentCadence = s.m_currentCadence ∧
        s2.m_currentSpeed = s.m_currentSpeed) ∧
    (∀ (frames : List QByteArray) (s2 : FTMSDevice) (effs : List Effect),
      handleAll frames s = Except.ok (s2, effs) →
        ∀ k, runTicks cadenceBits k s2 = runTicks cadenceBits k s) ∧
    (s.hasCharacteristic cpUuid = true →
      ∀ frames : List QByteArray, (∀ b ∈ frames, b ≠ []) →
        ∃ effs, handleAll frames s = Except.ok (s, effs)) ∧
    (∀ (s2 : FTMSDevice) (effs : List Effect),
      FTMSDevice.sendCurrentValues cadenceBits s = Except.ok (s2, effs) →
        s2.m_currentHeartrate = s.m_currentHeartrate ∧ s2.m_devId = s.m_devId ∧
        s2.m_isControllable = s.m_isControllable ∧
        s2 = { s with m_currentCadence := s2.m_currentCadence,
                      m_currentPower := s2.m_currentPower,
                      m_currentSpeed := s2.m_currentSpeed }) := by
  refine ⟨?_, ?_, ?_, ?_⟩
  · intro c b s2 effs hrun
    have e := handler_state s c b s2 effs hrun
    subst e
    exact ⟨rfl, rfl, rfl, rfl, rfl⟩
  · intro frames s2 effs hrun k
    rw [handleAll_state frames s s2 effs hrun]
  · intro h frames hne
    exact handleAll_completes frames s h hne
  · intro s2 effs hrun
    have e := tick_state cadenceBits s s2 effs hrun
    subst e
    exact ⟨rfl, rfl, rfl, rfl⟩

end FTMS
